import Mathlib

/-!
Shallow embedding of the audio transcription pipeline of ConvoLyzer:
`WhisperService` in `src/src/services/AudioAnalysisService.ts`
(`transcribeAudio`, `convertToFloat32Array`, `transcribeWithSarvam`)
and the server-side `transcribeWithWhisper` subprocess call.

Audio samples are modelled as rationals (`ℚ`), JavaScript arrays as
lists, and absent JSON fields as `Option`.  JavaScript truthiness on
the fields the code tests is modelled explicitly: an empty string and
the number `0` are falsy, every other string/number is truthy.
-/

namespace ConvoLyzer

/-- A transcript chunk `{text, start, end}` (`TranscriptionChunk` in the
source).  The source field `end` is called `stop` here because `end` is a
Lean keyword. -/
structure Chunk where
  text : String
  start : ℚ
  stop : ℚ
deriving DecidableEq

/-- `TranscriptionResult` in the source: full text plus chunk list. -/
structure TranscriptionResult where
  text : String
  chunks : List Chunk
deriving DecidableEq

/-- The two fields of the uploaded `File` that `transcribeAudio` inspects:
declared MIME `type` and byte `size`. -/
structure AudioFile where
  type : String
  size : Nat
deriving DecidableEq

/-- `const supportedFormats = ['audio/wav', 'audio/mp3', 'audio/mpeg']`. -/
def supportedFormats : List String := ["audio/wav", "audio/mp3", "audio/mpeg"]

/-- `s.startsWith(pre)` of JavaScript, modelled on character sequences. -/
def startsWith (s pre : String) : Bool := pre.data.isPrefixOf s.data

/-- `const maxSize = 25 * 1024 * 1024` (25MB in bytes). -/
def maxSize : Nat := 25 * 1024 * 1024

/-- What `transcribeAudio` observes of `axios.post('/api/transcribe', ...)`:
either the request threw (network error, non-2xx status, axios timeout), or a
response arrived whose body may or may not carry `text` and `chunks` fields.
An absent field is `none`. -/
inductive ApiOutcome where
  | failed
  | responded (text : Option String) (chunks : Option (List Chunk))
deriving DecidableEq

/-- Result of a transcription call: resolved value or thrown error message. -/
inductive TResult where
  | ok (r : TranscriptionResult)
  | err (msg : String)
deriving DecidableEq

/-- One run of `transcribeAudio`: its result plus which backends were
invoked (the API POST, and `transcribeLocally`). -/
structure TranscribeRun where
  result : TResult
  apiAttempted : Bool
  localAttempted : Bool
deriving DecidableEq

/-- `WhisperService.transcribeAudio` (AudioAnalysisService.ts:457-521) as a
function of the file and of the outcomes of its two effectful calls.
Control flow from the source:
* `if (!supportedFormats.some(format => audioFile.type.startsWith(format)))`
  throw the format error;
* `if (audioFile.size > maxSize)` throw the size error;
* POST the file; on `response.data?.text` truthy (a present, non-empty
  string) return `{text, chunks: response.data.chunks || []}`;
* otherwise (request threw, or no/empty text) fall back to
  `transcribeLocally`; if that throws, the error is re-thrown wrapped as
  `Failed to process audio: ...`. -/
def transcribeAudio (file : AudioFile) (api : ApiOutcome)
    (localOutcome : TResult) : TranscribeRun :=
  if ¬ (supportedFormats.any fun f => startsWith file.type f) then
    ⟨.err "Please upload a WAV or MP3 file.", false, false⟩
  else if file.size > maxSize then
    ⟨.err "File too large. Maximum size is 25MB.", false, false⟩
  else
    let fallback : TranscribeRun :=
      match localOutcome with
      | .ok r => ⟨.ok r, true, true⟩
      | .err m => ⟨.err ("Failed to process audio: " ++ m), true, true⟩
    match api with
    | .failed => fallback
    | .responded none _ => fallback
    | .responded (some t) chunks =>
        if t = "" then fallback
        else ⟨.ok ⟨t, chunks.getD []⟩, true, false⟩

/-- The peak-search loop of `convertToFloat32Array`
(AudioAnalysisService.ts:260-267): starting from `maxAbsValue = 0`, each
sample raises the running maximum to its absolute value when larger. -/
def maxAbsValue (l : List ℚ) : ℚ := l.foldl (fun m x => max m |x|) 0

/-- The normalization phase of `convertToFloat32Array`
(AudioAnalysisService.ts:260-276): `maxAbsValue = maxAbsValue || 1` turns a
zero peak into the divisor 1 (the division-by-zero guard), then every sample
is divided by the divisor. -/
def normalizedOf (rawData : List ℚ) : List ℚ :=
  let m := maxAbsValue rawData
  let m := if m = 0 then 1 else m
  rawData.map fun x => x / m

/-- `WhisperService.convertToFloat32Array` (AudioAnalysisService.ts:248-302)
after decoding: `rawData` is the first channel of the decoded buffer and
`sampleRate` its rate.  The samples are peak-normalized; when the rate is not
16000, the buffer is resampled by nearest-neighbor index mapping
(`resampledData[i] = normalizedData[Math.floor(i / resampleRatio)]`) to
length `Math.floor(length * resampleRatio)` with
`resampleRatio = 16000 / sampleRate`. -/
def convertToFloat32Array (rawData : List ℚ) (sampleRate : ℕ) : List ℚ :=
  let normalizedData := normalizedOf rawData
  if sampleRate = 16000 then normalizedData
  else
    let resampleRatio : ℚ := 16000 / sampleRate
    let resampledLength : ℕ :=
      (⌊(normalizedData.length : ℚ) * resampleRatio⌋).toNat
    (List.range resampledLength).map fun (i : ℕ) =>
      normalizedData.getD (⌊(i : ℚ) / resampleRatio⌋).toNat 0

/-- A raw segment of the Sarvam response as `transcribeWithSarvam` reads it:
any of the fields `text`, `transcript`, `start`, `end` (here `stop`) and
`timestamp` may be absent. -/
structure RawSegment where
  text : Option String
  transcript : Option String
  start : Option ℚ
  stop : Option ℚ
  timestamp : Option (List ℚ)
deriving DecidableEq

/-- JavaScript `a || b` for an optional string field: an absent field and the
empty string are falsy. -/
def jsOrS (a : Option String) (b : String) : String :=
  match a with
  | none => b
  | some s => if s = "" then b else s

/-- JavaScript `a || b` for an optional numeric field: an absent field and
the number `0` are falsy. -/
def jsOrQ (a : Option ℚ) (b : ℚ) : ℚ :=
  match a with
  | none => b
  | some x => if x = 0 then b else x

/-- The per-segment mapping of `transcribeWithSarvam`
(AudioAnalysisService.ts:343-348):
`text = segment.text || segment.transcript || ''`,
`start = segment.start || segment.timestamp?.[0] || 0`,
`end = segment.end || segment.timestamp?.[1] || start + (text.split(' ').length * 0.3)`,
returning `{text: text.trim(), start, end}`. -/
def processSegment (s : RawSegment) : Chunk :=
  let text := jsOrS s.text (jsOrS s.transcript "")
  let start := jsOrQ s.start (jsOrQ (s.timestamp.bind fun l => l.get? 0) 0)
  let stop := jsOrQ s.stop (jsOrQ (s.timestamp.bind fun l => l.get? 1)
      (start + ((text.splitOn " ").length : ℚ) * (3 / 10)))
  ⟨text.trim, start, stop⟩

/-- `const processedSegments = segments.map(...)` of `transcribeWithSarvam`
(AudioAnalysisService.ts:343-348). -/
def processedSegments (segs : List RawSegment) : List Chunk :=
  segs.map processSegment

/-- The ordering invariant claimed of the assembled chunk list: each chunk
starts no earlier than the previous chunk ends (sorted, non-overlapping). -/
def chunksMonotone : List Chunk → Bool
  | a :: b :: rest => decide (a.stop ≤ b.start) && chunksMonotone (b :: rest)
  | _ => true

/-- One segment of the parsed whisper subprocess JSON output
(`result.segments` in the server file). -/
structure WhisperSegment where
  text : String
  start : ℚ
  stop : ℚ
deriving DecidableEq

/-- A `{word, start, end}` entry of the resolved transcription. -/
structure WordEntry where
  word : String
  start : ℚ
  stop : ℚ
deriving DecidableEq

/-- Classification of the subprocess's accumulated stdout after
`JSON.parse` (the parse is an external facility, taken as an input):
the parse threw, or the parsed object has a truthy `error` field, or it is a
transcription result with `text` and `segments`. -/
inductive ParsedOutput where
  | parseFailure (msg : String)
  | withError (msg : String)
  | parsed (text : String) (segments : List WhisperSegment)
deriving DecidableEq

/-- A settled promise of `transcribeWithWhisper`. -/
inductive WhisperResult where
  | resolved (text : String) (words : List WordEntry)
  | rejected (msg : String)
deriving DecidableEq

/-- The `close` handler of `transcribeWithWhisper` (server file, the
`whisperProcess.on('close', ...)` callback): non-zero exit code rejects with
the accumulated stderr; otherwise the parsed stdout decides: parse failure or
an `error` field reject, and a result resolves with its text and its
segments mapped to `{word, start, end}` entries. -/
def whisperOnClose (code : Int) (errorData : String)
    (parsed : ParsedOutput) : WhisperResult :=
  if code ≠ 0 then .rejected ("Whisper process failed: " ++ errorData)
  else
    match parsed with
    | .parseFailure m => .rejected ("Failed to parse Whisper output: " ++ m)
    | .withError m => .rejected ("Whisper error: " ++ m)
    | .parsed text segments =>
        .resolved text (segments.map fun s => ⟨s.text, s.start, s.stop⟩)

set_option linter.unusedVariables false in
/-- `transcribeWithWhisper` (server file, lines 201-309) as a function of the
observed subprocess run.  The source checks that the Python environment and
the audio file exist, spawns the process, and registers only
`stdout`/`stderr` data handlers plus `close` and `error` handlers: it sets no
timer and never signals the child, so the promise settles only at the
process's `close` (or spawn `error`) event.  `elapsedMs` is the wall-clock
time the subprocess ran before closing; it appears as an argument precisely
to record that the settled result cannot depend on it. -/
def transcribeWithWhisper (envExists audioExists : Bool) (elapsedMs : Nat)
    (code : Int) (errorData : String) (parsed : ParsedOutput) : WhisperResult :=
  if !envExists then
    .rejected "Whisper environment not properly configured. Please check installation."
  else if !audioExists then
    .rejected "Audio file not found"
  else
    whisperOnClose code errorData parsed

end ConvoLyzer

namespace ConvoLyzer

/-- Claim C2: when the API responds with a non-empty `text`, `transcribeAudio`
returns that text immediately with the response's chunks (empty list if
absent), and `transcribeLocally` is never invoked. -/
theorem C2_thm (file : AudioFile) (api : ApiOutcome) (localOutcome : TResult)
    (t : String) (chunks : Option (List Chunk))
    (hm : (supportedFormats.any fun f => startsWith file.type f) = true)
    (hs : file.size ≤ maxSize)
    (hapi : api = .responded (some t) chunks) (ht : t ≠ "") :
    transcribeAudio file api localOutcome
      = ⟨.ok ⟨t, chunks.getD []⟩, true, false⟩ := by
  subst hapi
  simp [transcribeAudio, hm, Nat.not_lt.mpr hs, ht]

/-- Witness for C2 at a concrete file and API response. -/
theorem C2_witness :
    transcribeAudio ⟨"audio/wav", 1⟩ (.responded (some "hi") none) (.err "x")
      = ⟨.ok ⟨"hi", []⟩, true, false⟩ :=
  C2_thm ⟨"audio/wav", 1⟩ (.responded (some "hi") none) (.err "x") "hi" none
    (by decide) (by decide) rfl (by decide)

/-- Claim C1 counterexample: the API responds successfully with the
whitespace-only text `" "`; the claim says this is treated as a failure and
the local backend runs, but `transcribeAudio` returns the remote result
(`" "` is truthy in JavaScript) and never invokes local transcription. -/
theorem C1_cex :
    transcribeAudio ⟨"audio/wav", 1⟩ (.responded (some " ") none)
        (.ok ⟨"local", []⟩)
      = ⟨.ok ⟨" ", []⟩, true, false⟩ := by decide

/-- Claim C1 (amended): only an absent or empty-string `text` field is
treated as a failure; in that case the run is identical to the run in which
the API request itself failed — the local backend is attempted and the remote
result is not returned.  (Whitespace-only text is truthy and is returned.) -/
theorem C1_thm (file : AudioFile) (t : Option String) (chunks : Option (List Chunk))
    (localOutcome : TResult)
    (ht : t = none ∨ t = some "") :
    transcribeAudio file (.responded t chunks) localOutcome
      = transcribeAudio file .failed localOutcome := by
  rcases ht with h | h <;> subst h <;> simp [transcribeAudio]

/-- Witness for the amended C1 at a concrete empty-text response. -/
theorem C1_witness :
    transcribeAudio ⟨"audio/wav", 1⟩ (.responded (some "") none)
        (.ok ⟨"local", []⟩)
      = transcribeAudio ⟨"audio/wav", 1⟩ .failed (.ok ⟨"local", []⟩) :=
  C1_thm ⟨"audio/wav", 1⟩ (some "") none (.ok ⟨"local", []⟩) (Or.inr rfl)

/-- Claim C7: a file strictly larger than 25MB is rejected before any
backend is attempted — neither the API POST nor local transcription runs,
and the call fails. -/
theorem C7_thm (file : AudioFile) (api : ApiOutcome) (localOutcome : TResult)
    (h : file.size > maxSize) :
    (transcribeAudio file api localOutcome).apiAttempted = false ∧
    (transcribeAudio file api localOutcome).localAttempted = false ∧
    ∃ m, (transcribeAudio file api localOutcome).result = .err m := by
  by_cases hm : (supportedFormats.any fun f => startsWith file.type f) = true
  · exact ⟨by simp [transcribeAudio, hm, h], by simp [transcribeAudio, hm, h],
      "File too large. Maximum size is 25MB.", by simp [transcribeAudio, hm, h]⟩
  · exact ⟨by simp [transcribeAudio, hm], by simp [transcribeAudio, hm],
      "Please upload a WAV or MP3 file.", by simp [transcribeAudio, hm]⟩

/-- Witness for C7 at a file one byte over the limit. -/
theorem C7_witness :
    (transcribeAudio ⟨"audio/wav", 25 * 1024 * 1024 + 1⟩ .failed
        (.ok ⟨"local", []⟩)).apiAttempted = false ∧
    (transcribeAudio ⟨"audio/wav", 25 * 1024 * 1024 + 1⟩ .failed
        (.ok ⟨"local", []⟩)).localAttempted = false ∧
    ∃ m, (transcribeAudio ⟨"audio/wav", 25 * 1024 * 1024 + 1⟩ .failed
        (.ok ⟨"local", []⟩)).result = .err m :=
  C7_thm ⟨"audio/wav", 25 * 1024 * 1024 + 1⟩ .failed (.ok ⟨"local", []⟩)
    (by decide)

/-- Claim C8 counterexample: the MIME type `"audio/wavelet"` is not in the
three-element supported set, yet the file passes the format check (the source
uses `startsWith`) and the API backend is attempted. -/
theorem C8_cex :
    ("audio/wavelet" ∈ supportedFormats) = False ∧
    (transcribeAudio ⟨"audio/wavelet", 1⟩ (.responded (some "hi") none)
        (.err "x")).apiAttempted = true := by
  constructor
  · simp [supportedFormats]
  · decide

/-- Claim C8 (amended): `transcribeAudio` rejects a file with the format
error exactly when its MIME type does not start with any of `audio/wav`,
`audio/mp3`, `audio/mpeg`; any type having one of those as a prefix passes
the format check, and reaches the API backend when within the size limit. -/
theorem C8_thm (file : AudioFile) (api : ApiOutcome) (localOutcome : TResult) :
    ((supportedFormats.any fun f => startsWith file.type f) = false →
      transcribeAudio file api localOutcome
        = ⟨.err "Please upload a WAV or MP3 file.", false, false⟩) ∧
    ((supportedFormats.any fun f => startsWith file.type f) = true →
      file.size ≤ maxSize →
      (transcribeAudio file api localOutcome).apiAttempted = true) := by
  constructor
  · intro hm
    simp [transcribeAudio, hm]
  · intro hm hs
    rcases api with _ | ⟨t, chunks⟩
    · simp [transcribeAudio, hm, Nat.not_lt.mpr hs]
      cases localOutcome <;> simp
    · rcases t with _ | t
      · simp [transcribeAudio, hm, Nat.not_lt.mpr hs]
        cases localOutcome <;> simp
      · by_cases ht : t = ""
        · simp only [transcribeAudio, hm, Nat.not_lt.mpr hs, ht]
          cases localOutcome <;> simp
        · simp [transcribeAudio, hm, Nat.not_lt.mpr hs, ht]

/-- Witness for the amended C8: a codec-suffixed MIME type reaches the API. -/
theorem C8_witness :
    (transcribeAudio ⟨"audio/wav;codecs=1", 1⟩ .failed
        (.ok ⟨"local", []⟩)).apiAttempted = true :=
  (C8_thm ⟨"audio/wav;codecs=1", 1⟩ .failed (.ok ⟨"local", []⟩)).2
    (by decide) (by decide)

/-- Claim C10: a file of exactly 25MB (`25 * 1024 * 1024` bytes) passes the
size check — the comparison is strict — so the backends are attempted. -/
theorem C10_thm (file : AudioFile) (api : ApiOutcome) (localOutcome : TResult)
    (hm : (supportedFormats.any fun f => startsWith file.type f) = true)
    (hs : file.size = 25 * 1024 * 1024) :
    (transcribeAudio file api localOutcome).apiAttempted = true := by
  have hle : file.size ≤ maxSize := by simp [hs, maxSize]
  rcases api with _ | ⟨t, chunks⟩
  · simp [transcribeAudio, hm, Nat.not_lt.mpr hle]
    cases localOutcome <;> simp
  · rcases t with _ | t
    · simp [transcribeAudio, hm, Nat.not_lt.mpr hle]
      cases localOutcome <;> simp
    · by_cases ht : t = ""
      · simp only [transcribeAudio, hm, Nat.not_lt.mpr hle, ht]
        cases localOutcome <;> simp
      · simp [transcribeAudio, hm, Nat.not_lt.mpr hle, ht]

/-- Witness for C10 at a concrete 25MB file. -/
theorem C10_witness :
    (transcribeAudio ⟨"audio/mp3", 25 * 1024 * 1024⟩ .failed
        (.ok ⟨"local", []⟩)).apiAttempted = true :=
  C10_thm ⟨"audio/mp3", 25 * 1024 * 1024⟩ .failed (.ok ⟨"local", []⟩)
    (by decide) rfl

/-- The running maximum of the peak-search loop dominates its initial
value. -/
theorem foldl_maxAbs_init_le (l : List ℚ) (a : ℚ) :
    a ≤ l.foldl (fun m x => max m |x|) a := by
  induction l generalizing a with
  | nil => exact le_refl a
  | cons y t ih =>
    simp only [List.foldl_cons]
    exact le_trans (le_max_left a |y|) (ih (max a |y|))

/-- The peak-search loop stays below any bound dominating the initial value
and every sample's absolute value. -/
theorem foldl_maxAbs_le (l : List ℚ) (c : ℚ) :
    ∀ a, a ≤ c → (∀ x ∈ l, |x| ≤ c) → l.foldl (fun m x => max m |x|) a ≤ c := by
  induction l with
  | nil => intro a ha _; exact ha
  | cons y t ih =>
    intro a ha h
    simp only [List.foldl_cons]
    exact ih _ (max_le ha (h y (List.mem_cons_self y t)))
      fun x hx => h x (List.mem_cons_of_mem y hx)

/-- The peak-search loop dominates the absolute value of every sample. -/
theorem mem_le_foldl_maxAbs (l : List ℚ) (x : ℚ) (hx : x ∈ l) :
    ∀ a, |x| ≤ l.foldl (fun m x => max m |x|) a := by
  induction l with
  | nil => cases hx
  | cons y t ih =>
    intro a
    simp only [List.foldl_cons]
    rcases List.mem_cons.mp hx with h | h
    · subst h
      exact le_trans (le_max_right a |x|) (foldl_maxAbs_init_le t _)
    · exact ih h _

/-- The peak-search loop returns its initial value or the absolute value of
some sample. -/
theorem foldl_maxAbs_cases (l : List ℚ) :
    ∀ a, l.foldl (fun m x => max m |x|) a = a ∨
      ∃ x ∈ l, l.foldl (fun m x => max m |x|) a = |x| := by
  induction l with
  | nil => intro a; exact Or.inl rfl
  | cons y t ih =>
    intro a
    simp only [List.foldl_cons]
    rcases ih (max a |y|) with h | ⟨x, hx, h⟩
    · rcases le_total a |y| with hay | hay
      · exact Or.inr ⟨y, List.mem_cons_self y t, by rw [h, max_eq_right hay]⟩
      · exact Or.inl (by rw [h, max_eq_left hay])
    · exact Or.inr ⟨x, List.mem_cons_of_mem y hx, h⟩

/-- The computed peak is never negative. -/
theorem maxAbsValue_nonneg (l : List ℚ) : 0 ≤ maxAbsValue l :=
  foldl_maxAbs_init_le l 0

/-- The computed peak dominates every sample's absolute value. -/
theorem le_maxAbsValue (l : List ℚ) (x : ℚ) (hx : x ∈ l) :
    |x| ≤ maxAbsValue l :=
  mem_le_foldl_maxAbs l x hx 0

/-- The computed peak is below any nonnegative bound on the samples. -/
theorem maxAbsValue_le (l : List ℚ) (c : ℚ) (hc : 0 ≤ c)
    (h : ∀ x ∈ l, |x| ≤ c) : maxAbsValue l ≤ c :=
  foldl_maxAbs_le l c 0 hc h

/-- A non-zero computed peak is the absolute value of some sample. -/
theorem maxAbsValue_attained (l : List ℚ) (h : maxAbsValue l ≠ 0) :
    ∃ x ∈ l, maxAbsValue l = |x| := by
  rcases foldl_maxAbs_cases l 0 with h0 | hx
  · exact absurd h0 h
  · exact hx

/-- An indexed read with default is an element of the list or the default. -/
theorem getD_mem_or (l : List ℚ) (n : ℕ) (d : ℚ) :
    l.getD n d ∈ l ∨ l.getD n d = d := by
  induction l generalizing n with
  | nil => exact Or.inr List.getD_nil
  | cons y t ih =>
    cases n with
    | zero =>
      exact Or.inl (by rw [List.getD_cons_zero]; exact List.mem_cons_self y t)
    | succ k =>
      rw [List.getD_cons_succ]
      rcases ih k with h | h
      · exact Or.inl (List.mem_cons_of_mem y h)
      · exact Or.inr h

/-- Every normalized sample has absolute value at most 1. -/
theorem normalizedOf_abs_le_one (raw : List ℚ) :
    ∀ y ∈ normalizedOf raw, |y| ≤ 1 := by
  intro y hy
  simp only [normalizedOf, List.mem_map] at hy
  obtain ⟨x, hx, rfl⟩ := hy
  by_cases hm : maxAbsValue raw = 0
  · have h0 : |x| ≤ 0 := hm ▸ le_maxAbsValue raw x hx
    have hx0 : x = 0 := abs_nonpos_iff.mp h0
    simp [hm, hx0]
  · have hpos : 0 < maxAbsValue raw :=
      lt_of_le_of_ne (maxAbsValue_nonneg raw) (Ne.symm hm)
    rw [if_neg hm, abs_div, abs_of_pos hpos]
    exact (div_le_one hpos).mpr (le_maxAbsValue raw x hx)

/-- The peak of a normalized (not yet resampled) buffer is 0 or exactly 1. -/
theorem maxAbsValue_normalizedOf (raw : List ℚ) :
    maxAbsValue (normalizedOf raw) = 0 ∨ maxAbsValue (normalizedOf raw) = 1 := by
  by_cases hm : maxAbsValue raw = 0
  · left
    refine le_antisymm (maxAbsValue_le _ _ le_rfl ?_) (maxAbsValue_nonneg _)
    intro y hy
    simp only [normalizedOf, List.mem_map] at hy
    obtain ⟨x, hx, rfl⟩ := hy
    have h0 : |x| ≤ 0 := hm ▸ le_maxAbsValue raw x hx
    have hx0 : x = 0 := abs_nonpos_iff.mp h0
    simp [hx0]
  · right
    have hpos : 0 < maxAbsValue raw :=
      lt_of_le_of_ne (maxAbsValue_nonneg raw) (Ne.symm hm)
    refine le_antisymm
      (maxAbsValue_le _ _ zero_le_one (normalizedOf_abs_le_one raw)) ?_
    obtain ⟨x, hx, hxe⟩ := maxAbsValue_attained raw hm
    have hmem : x / maxAbsValue raw ∈ normalizedOf raw := by
      simp only [normalizedOf, List.mem_map]
      exact ⟨x, hx, by rw [if_neg hm]⟩
    have hle := le_maxAbsValue _ _ hmem
    have habs : |x / maxAbsValue raw| = 1 := by
      rw [abs_div, abs_of_pos hpos, ← hxe, div_self hm]
    rw [← habs]
    exact hle

/-- Claim C3 counterexample: for the decoded input `[1/2, 1]` at 32000 Hz the
resampler keeps only the sample at index 0 and drops the peak, so the
returned buffer's maximum absolute sample is 1/2 — neither 0 nor 1. -/
theorem C3_cex :
    maxAbsValue (convertToFloat32Array [1/2, 1] 32000) ≠ 0 ∧
    maxAbsValue (convertToFloat32Array [1/2, 1] 32000) ≠ 1 := by
  have h : convertToFloat32Array [1/2, 1] 32000 = [1/2] := by
    norm_num [convertToFloat32Array, normalizedOf, maxAbsValue, List.foldl,
      max_def, abs, List.range_succ, List.getD]
  rw [h]
  norm_num [maxAbsValue, List.foldl, max_def, abs]

/-- Claim C3 (amended): the buffer returned by `convertToFloat32Array` always
has maximum absolute sample at most 1, and when no resampling happens
(source rate 16000) that maximum is exactly 0 (silence) or 1
(peak-normalized); after resampling it can lie strictly between 0 and 1
because nearest-neighbor index mapping may drop the peak sample. -/
theorem C3_thm (rawData : List ℚ) (sampleRate : ℕ) :
    maxAbsValue (convertToFloat32Array rawData sampleRate) ≤ 1 ∧
    (sampleRate = 16000 →
      maxAbsValue (convertToFloat32Array rawData sampleRate) = 0 ∨
      maxAbsValue (convertToFloat32Array rawData sampleRate) = 1) := by
  constructor
  · apply maxAbsValue_le _ _ zero_le_one
    intro y hy
    by_cases h : sampleRate = 16000
    · rw [convertToFloat32Array] at hy
      simp only [h, if_true] at hy
      exact normalizedOf_abs_le_one rawData y hy
    · rw [convertToFloat32Array] at hy
      simp only [h, if_false, List.mem_map, List.mem_range] at hy
      obtain ⟨i, _, rfl⟩ := hy
      rcases getD_mem_or (normalizedOf rawData) _ 0 with hmem | he
      · exact normalizedOf_abs_le_one rawData _ hmem
      · rw [he]; norm_num
  · intro h
    rw [convertToFloat32Array]
    simp only [h, if_true]
    exact maxAbsValue_normalizedOf rawData

/-- Witness for the amended C3 at a concrete non-resampled input. -/
theorem C3_witness :
    maxAbsValue (convertToFloat32Array [1/2, 1] 16000) = 0 ∨
    maxAbsValue (convertToFloat32Array [1/2, 1] 16000) = 1 :=
  (C3_thm [1/2, 1] 16000).2 rfl

/-- Claim C5 counterexample: a 3-sample buffer at 32000 Hz resamples to
length 1, but `round(3 * 16000 / 32000) = round(1.5) = 2`; the source uses
`Math.floor`, not `round`. -/
theorem C5_cex :
    (convertToFloat32Array [1, 1, 1] 32000).length = 1 ∧
    round ((3 : ℚ) * 16000 / 32000) = 2 := by
  constructor
  · norm_num [convertToFloat32Array, normalizedOf, maxAbsValue, List.foldl,
      max_def, abs]
  · norm_num [round_eq]

set_option linter.unusedVariables false in
/-- Claim C5 (amended): for a positive source rate different from 16000, the
resampled buffer's length is `floor(sourceLength * 16000 / sourceRate)`
(truncation, not rounding to nearest). -/
theorem C5_thm (rawData : List ℚ) (sampleRate : ℕ)
    (h0 : 0 < sampleRate) (h16 : sampleRate ≠ 16000) :
    (convertToFloat32Array rawData sampleRate).length
      = (⌊(rawData.length : ℚ) * 16000 / sampleRate⌋).toNat := by
  rw [convertToFloat32Array]
  simp only [h16, if_false, List.length_map, List.length_range, normalizedOf]
  rw [mul_div_assoc]

/-- Witness for the amended C5 at the concrete 3-sample 32000 Hz input. -/
theorem C5_witness :
    (convertToFloat32Array [1, 1, 1] 32000).length
      = (⌊((([1, 1, 1] : List ℚ).length : ℚ)) * 16000 / ((32000 : ℕ) : ℚ)⌋).toNat :=
  C5_thm [1, 1, 1] 32000 (by norm_num) (by norm_num)

/-- Claim C9: an all-zero decoded input yields an all-zero buffer — the
`maxAbsValue || 1` guard makes the divisor 1, so no division by zero
occurs and every output sample is 0. -/
theorem C9_thm (rawData : List ℚ) (sampleRate : ℕ)
    (hz : ∀ x ∈ rawData, x = 0) :
    convertToFloat32Array rawData sampleRate
      = List.replicate (convertToFloat32Array rawData sampleRate).length 0 := by
  have hnorm : ∀ y ∈ normalizedOf rawData, y = 0 := by
    intro y hy
    simp only [normalizedOf, List.mem_map] at hy
    obtain ⟨x, hx, rfl⟩ := hy
    rw [hz x hx]
    simp
  have hall : ∀ y ∈ convertToFloat32Array rawData sampleRate, y = 0 := by
    intro y hy
    by_cases h : sampleRate = 16000
    · rw [convertToFloat32Array] at hy
      simp only [h, if_true] at hy
      exact hnorm y hy
    · rw [convertToFloat32Array] at hy
      simp only [h, if_false, List.mem_map, List.mem_range] at hy
      obtain ⟨i, _, rfl⟩ := hy
      rcases getD_mem_or (normalizedOf rawData) _ 0 with hmem | he
      · exact hnorm _ hmem
      · exact he
  exact List.eq_replicate_of_mem hall

/-- Witness for C9 at a concrete silent two-sample input resampled from
8000 Hz. -/
theorem C9_witness :
    convertToFloat32Array [0, 0] 8000
      = List.replicate (convertToFloat32Array [0, 0] 8000).length 0 :=
  C9_thm [0, 0] 8000 (by simp)

/-- Claim C4 counterexample: two raw segments `[1,5]` and `[3,6]` overlap;
the assembled chunk list keeps start 3 before the previous end 5, so the
claimed sorted/non-overlapping invariant fails — `transcribeWithSarvam`
performs no clipping. -/
theorem C4_cex :
    chunksMonotone (processedSegments
      [⟨some "a", none, some 1, some 5, none⟩,
       ⟨some "b", none, some 3, some 6, none⟩]) = false := by
  norm_num [chunksMonotone, processedSegments, processSegment, jsOrQ, jsOrS]

/-- Claim C4 (amended): the chunk list built by `transcribeWithSarvam` is a
per-segment mapping: it has one chunk per raw segment, and each chunk's
start and end are taken verbatim from its own segment's truthy `start` and
`end` fields, independent of neighboring segments — no clipping of a
segment's start to the previous segment's end is performed, so out-of-order
or overlapping spans are passed through. -/
theorem C4_thm (segs : List RawSegment) :
    (processedSegments segs).length = segs.length ∧
    ∀ s ∈ segs, ∀ a b, s.start = some a → a ≠ 0 → s.stop = some b → b ≠ 0 →
      (processSegment s).start = a ∧ (processSegment s).stop = b := by
  constructor
  · simp [processedSegments]
  · intro s _ a b ha ha0 hb hb0
    constructor
    · simp [processSegment, ha, jsOrQ, ha0]
    · simp [processSegment, hb, jsOrQ, hb0]

/-- Witness for the amended C4 at a concrete overlapping segment. -/
theorem C4_witness :
    (processSegment ⟨some "b", none, some 3, some 6, none⟩).start = 3 ∧
    (processSegment ⟨some "b", none, some 3, some 6, none⟩).stop = 6 :=
  (C4_thm [⟨some "b", none, some 3, some 6, none⟩]).2
    ⟨some "b", none, some 3, some 6, none⟩ (List.mem_singleton.mpr rfl)
    3 6 rfl (by norm_num) rfl (by norm_num)

/-- Claim C6 counterexample: a subprocess run lasting 3,000,000 ms — one
hundred times the 30 s budget the spec recommends — that then exits cleanly
is resolved with its transcript: no timeout fires, the process is not
killed, and no `Timeout` failure is produced. -/
theorem C6_cex :
    transcribeWithWhisper true true 3000000 0 "" (.parsed "hello" [])
      = .resolved "hello" [] ∧ 30000 < 3000000 :=
  ⟨rfl, by norm_num⟩

/-- Claim C6 (amended): `transcribeWithWhisper` enforces no wall-clock
timeout: the settled result is independent of how long the subprocess ran,
and once the environment and audio-file checks pass it is decided solely by
the close event's exit code and parsed output. -/
theorem C6_thm (envExists audioExists : Bool) (e e' : Nat) (code : Int)
    (errorData : String) (parsed : ParsedOutput) :
    transcribeWithWhisper envExists audioExists e code errorData parsed
      = transcribeWithWhisper envExists audioExists e' code errorData parsed ∧
    (envExists = true → audioExists = true →
      transcribeWithWhisper envExists audioExists e code errorData parsed
        = whisperOnClose code errorData parsed) := by
  refine ⟨rfl, ?_⟩
  intro he ha
  subst he
  subst ha
  rfl

/-- Witness for the amended C6 at a concrete failing run. -/
theorem C6_witness :
    transcribeWithWhisper true true 99999999 1 "boom" (.parsed "x" [])
      = whisperOnClose 1 "boom" (.parsed "x" []) :=
  (C6_thm true true 99999999 0 1 "boom" (.parsed "x" [])).2 rfl rfl

end ConvoLyzer
